import Mathlib

set_option maxRecDepth 100000

/-!
Verification development for the article-label-maker classification core.

The definitions below are a shallow embedding of the Python sources:
  - `api/app/config/settings.py` (label vocabulary, thresholds),
  - `api/app/classifiers/classifier_base.py` (`preprocess_text`),
  - `api/app/classifiers/few_shot_prompting.py` (`_parse_response`,
    `_call_ollama`, `predict`),
  - `few_shot_prompts.py` (`create_classification_prompt`, example bank),
  - `api/app/classifiers/zero_shot.py` (`predict`),
  - `api/app/services/classification.py` (`classify_articles_batch`),
  - `api/csv_processor.py` (`process_csv`).

Python strings are modelled as Lean `String` (lists of characters);
Python floats that only ever hold exact literals (0.8, 0.95) are modelled
as rationals; dictionaries with a fixed literal key set are modelled as
association lists or structures; code that raises exceptions is modelled
in the `Except` monad.  External HTTP calls and the GLiClass scoring
pipeline are parameters of the embedded functions.
-/

namespace settings

/-- The label vocabulary `settings.labels`. -/
def labels : List String := ["Cardiovascular", "Neurological", "Hepatorenal", "Oncological"]

/-- Default classification threshold `settings.threshold`. -/
def threshold : ℚ := 95 / 100

end settings

/-- Split a character list on runs of whitespace, accumulating the current
token in reverse.  Mirrors Python `str.split()` with no arguments: tokens
are maximal runs of non-whitespace characters; leading, trailing and
repeated whitespace produce no empty tokens. -/
def splitWsAux : List Char → List Char → List (List Char)
  | [], acc => if acc.isEmpty then [] else [acc.reverse]
  | c :: cs, acc =>
    if c.isWhitespace then
      if acc.isEmpty then splitWsAux cs [] else acc.reverse :: splitWsAux cs []
    else splitWsAux cs (c :: acc)

/-- Python `s.split()` on a character list. -/
def splitWs (s : List Char) : List (List Char) := splitWsAux s []

/-- Python `" ".join(tokens)` on character-list tokens. -/
def joinSpace : List (List Char) → List Char
  | [] => []
  | [t] => t
  | t :: ts => t ++ ' ' :: joinSpace ts

/-- An article input: dict with `title` and `abstract` keys
(`ArticleRequest` fields). -/
structure Article where
  title : String
  abstract : String
deriving DecidableEq, Repr

/-- Embedding of `ClassifierBase.preprocess_text`
(`classifier_base.py` lines 98-120): an empty `abstract` short-circuits to
the empty string; otherwise title and abstract are joined with a newline
and whitespace is collapsed via `" ".join(text.split())`. -/
def preprocess_text (text : Article) : String :=
  if text.abstract = "" then ""
  else String.mk (joinSpace (splitWs (text.title.data ++ '\n' :: text.abstract.data)))

/-- Drop leading whitespace characters from a character list. -/
def dropLeadingWs : List Char → List Char
  | [] => []
  | c :: cs => if c.isWhitespace then dropLeadingWs cs else c :: cs

/-- Python `s.strip()`: remove leading and trailing whitespace. -/
def pyStrip (s : String) : String :=
  String.mk (dropLeadingWs (dropLeadingWs s.data.reverse).reverse)

/-- Python `s.lower()` (ASCII case folding, which covers the vocabulary
and the responses of interest). -/
def pyLower (s : String) : String :=
  String.mk (s.data.map Char.toLower)

/-- Python substring test `needle in hay`. -/
def strContains (hay needle : String) : Bool :=
  (List.range (hay.data.length + 1)).any fun i => needle.data.isPrefixOf (hay.data.drop i)

/-- The primary-pass match of `_parse_response`: the lowercased label
occurs as a substring of the cleaned (stripped, lowercased) response. -/
def primaryMatch (response label : String) : Bool :=
  strContains (pyLower (pyStrip response)) (pyLower label)

/-- The fallback-pass match of `_parse_response`: some whitespace-separated
word of the lowercased label occurs as a substring of the cleaned response. -/
def fallbackMatch (response label : String) : Bool :=
  ((splitWs (pyLower label).data).map String.mk).any fun word =>
    strContains (pyLower (pyStrip response)) word

/-- Embedding of `FewShotClassifier._parse_response`
(`few_shot_prompting.py` lines 250-273).  The response is stripped and
lowercased; the first vocabulary label (in `settings.labels` order) whose
lowercase text is a substring is returned; failing that, the first label
one of whose words is a substring; failing that, `none`.  Python's
`return label` inside the loop means at most one label is ever produced. -/
def parse_response (response : String) : Option String :=
  match settings.labels.find? (primaryMatch response) with
  | some label => some label
  | none => settings.labels.find? (fallbackMatch response)

/-- A few-shot example from the fixed bank in `few_shot_prompts.py`:
dict with `title`, `abstract` and `label` keys (the label field holds
pipe-joined label names for multi-label examples). -/
structure FewShotExample where
  title : String
  abstract : String
  label : String
deriving DecidableEq, Repr

/-- The fixed example bank `FEW_SHOT_EXAMPLES` of `few_shot_prompts.py`,
verbatim and in source order. -/
def FEW_SHOT_EXAMPLES : List FewShotExample :=
  [ { title := "Hypertensive response during dobutamine stress echocardiography"
    , abstract := "Among 3,129 dobutamine stress echocardiographic studies, a hypertensive response, defined as systolic blood pressure (BP) > or = 220 mm Hg and/or diastolic BP > or = 110 mm Hg, occurred in 30 patients (1%). Patients with this response more often had a history of hypertension and had higher resting systolic and diastolic BP before dobutamine infusion."
    , label := "Cardiovascular" }
  , { title := "Adrenoleukodystrophy: survey of 303 cases: biochemistry, diagnosis, and therapy"
    , abstract := "Adrenoleukodystrophy (ALD) is a genetically determined disorder associated with progressive central demyelination and adrenal cortical insufficiency. All affected persons show increased levels of saturated unbranched very-long-chain fatty acids, particularly hexacosanoate (C26:0), because of impaired capacity to degrade these acids. This degradation normally takes place in a subcellular organelle called the peroxisome, and ALD, together with Zellwegers cerebrohepatorenal syndrome, is now considered to belong to the newly formed category of peroxisomal disorders."
    , label := "Neurological|Hepatorenal" }
  , { title := "The interpeduncular nucleus regulates nicotine effects on free-field activity"
    , abstract := "Partial lesions were made with kainic acid in the interpeduncular nucleus of the ventral midbrain of the rat. Compared with sham-operated controls, lesions significantly (p < 0.25) blunted the early (<60 min) free-field locomotor hypoactivity caused by nicotine (0.5 mg kg(-1), i.m.), enhanced the later (60-120 min) nicotine-induced hyperactivity, and raised spontaneous nocturnal activity."
    , label := "Neurological" }
  , { title := "Patterns of sulfadiazine acute nephrotoxicity"
    , abstract := "Sulfadiazine acute nephrotoxicity is reviving specially because of its use in toxoplasmosis in HIV-positive patients. We report 4 cases, one of them in a previously healthy person. Under treatment with sulfadiazine they developed oliguria, abdominal pain, renal failure and showed multiple radiolucent renal calculi in echography."
    , label := "Hepatorenal" }
  , { title := "Haplotype and phenotype analysis of six recurrent BRCA1 mutations in 61 families"
    , abstract := "Several BRCA1 mutations have now been found to occur in geographically diverse breast and ovarian cancer families. To investigate mutation origin and mutation-specific phenotypes due to BRCA1, we constructed a haplotype of nine polymorphic markers within or immediately flanking the BRCA1 locus in a set of 61 breast/ovarian cancer families selected for having one of six recurrent BRCA1 mutations."
    , label := "Oncological" }
  , { title := "corticosteroids and ventricular tachycardia: brain insights"
    , abstract := "Purpose: This longitudinal study examined aspirin for hypertension in adult population. The investigation included analysis of breast cancer, gaba, and myelodysplastic syndrome. Methods: 345 participants were included. Results: reduction in adverse events. Implications: clinical practice guidelines."
    , label := "Neurological|Oncological" }
  , { title := "tia and epilepsy: vascular insights"
    , abstract := "Hypothesis: ACE inhibitors improves cancer outcomes via atrial fibrillation pathways. Methods: randomized controlled trial with 162 cancer patients, measuring hemodialysis and endothelial. Results: positive treatment response. Conclusion: clinical practice guidelines."
    , label := "Cardiovascular|Hepatorenal" }
  , { title := "Potential therapeutic use of the selective dopamine D1 receptor agonist, A-86929: an acute study in parkinsonian levodopa-primed monkeys"
    , abstract := "The clinical utility of dopamine (DA) D1 receptor agonists in the treatment of Parkinson disease (PD) is still unclear. The therapeutic use of selective DA D1 receptor agonists such as SKF-82958 and A-77636 seems limited because of their duration of action, which is too short for SKF-82958 (< 1 hr) and too long for A-77636 (> 20 hr, leading to behavioral tolerance)."
    , label := "Neurological" }
  ]

/-- Python slice `l[:n]` for an `int` bound `n`: a nonnegative bound takes
the first `n` elements (clipped at the length); a negative bound drops the
last `-n` elements (clipped at zero). -/
def pySliceTo (n : ℤ) {α : Type} (l : List α) : List α :=
  if 0 ≤ n then l.take n.toNat else l.take ((l.length : ℤ) + n).toNat

/-- Python `", ".join(labels)` and friends: join character lists with a
separator. -/
def joinSep (sep : List Char) : List (List Char) → List Char
  | [] => []
  | [x] => x
  | x :: xs => x ++ sep ++ joinSep sep xs

/-- The example blocks `create_classification_prompt` renders: the slice
`FEW_SHOT_EXAMPLES[:max_examples]` of the bank, in bank order. -/
def exampleBlocks (max_examples : ℤ) : List FewShotExample :=
  pySliceTo max_examples FEW_SHOT_EXAMPLES

/-- One rendered example block: `Title: ...\nAbstract: ...\nCategory: ...\n\n`. -/
def renderExample (e : FewShotExample) : List Char :=
  "Title: ".data ++ e.title.data ++ "\n".data
    ++ "Abstract: ".data ++ e.abstract.data ++ "\n".data
    ++ "Category: ".data ++ e.label.data ++ "\n\n".data

/-- Embedding of `create_classification_prompt` (`few_shot_prompts.py`
lines 69-97), at the character-list level: instruction line, the comma-
joined vocabulary, the `Examples:` section built from the bank slice (the
section header is emitted whenever the bank itself is non-empty), the
target text and the trailing `Category:` cue. -/
def promptData (text : List Char) (labels : List (List Char)) (max_examples : ℤ) : List Char :=
  "You are a medical text classifier. Classify the following medical article into one of these categories:\n".data
    ++ "Categories: ".data ++ joinSep ", ".data labels ++ "\n\n".data
    ++ (if FEW_SHOT_EXAMPLES.isEmpty then [] else
          "Examples:\n".data ++ (List.map renderExample (exampleBlocks max_examples)).flatten)
    ++ "Classify the following article into one of these categories:\n".data
    ++ text ++ "\n".data ++ "Category:".data

/-- String-level wrapper for `create_classification_prompt`. -/
def create_classification_prompt (text : String) (labels : List String) (max_examples : ℤ) : String :=
  String.mk (promptData text.data (labels.map String.data) max_examples)

/-- A metadata dictionary value: the metadata dicts built by the
classifiers hold strings, counts, rational scores, string lists or
Python `None`. -/
inductive MetaVal where
  | s (v : String)
  | n (v : Nat)
  | q (v : ℚ)
  | ls (v : List String)
  | none
deriving DecidableEq, Repr

/-- Outcome of an HTTP POST to the Ollama generation endpoint: either a
transport-level failure (a `requests` exception) or a status code
together with the `response` field of the returned JSON body. -/
inductive HttpResult where
  | transportError (msg : String)
  | response (status : Nat) (body : String)
deriving DecidableEq, Repr

/-- Embedding of `FewShotClassifier._call_ollama` (`few_shot_prompting.py`
lines 127-167), parameterized by the HTTP transport.  A 200 status yields
the stripped body text; any other status raises
`RuntimeError("Ollama API returned status ...")`; a transport failure
raises `RuntimeError("Failed to communicate with Ollama: ...")`.  Raised
exceptions are modelled in the `Except` monad. -/
def call_ollama (http : String → HttpResult) (prompt : String) : Except String String :=
  match http prompt with
  | .response status body =>
    if status == 200 then .ok (pyStrip body)
    else .error ("Ollama API returned status " ++ toString status)
  | .transportError msg => .error ("Failed to communicate with Ollama: " ++ msg)

/-- Split a character list on a separator character, mirroring Python
`s.split(sep)` for a one-character separator. -/
def splitOnChar (sep : Char) : List Char → List Char → List (List Char)
  | [], acc => [acc.reverse]
  | c :: cs, acc =>
    if c = sep then acc.reverse :: splitOnChar sep cs [] else splitOnChar sep cs (c :: acc)

/-- Python `s.split("|")`. -/
def pySplitPipe (s : String) : List String :=
  (splitOnChar '|' s.data []).map String.mk

/-- A prediction dict returned by `FewShotClassifier.predict`: the success
path returns the keys `labels`/`confidence`/`probabilities`/`metadata`,
while every caught-exception path (and the empty-input path) returns the
keys `label`/`confidence`/`probabilities`/`metadata` with `label = None`
and an `error` entry in the metadata. -/
inductive FSPrediction where
  | success (labels : List String) (confidence : ℚ)
      (probabilities : List (String × ℚ)) (metadata : List (String × MetaVal))
  | errorShape (label : Option String) (confidence : ℚ)
      (probabilities : List (String × ℚ)) (metadata : List (String × MetaVal))
deriving DecidableEq, Repr

/-- Metadata of a few-shot prediction dict. -/
def FSPrediction.metadataOf : FSPrediction → List (String × MetaVal)
  | .success _ _ _ m => m
  | .errorShape _ _ _ m => m

/-- Confidence of a few-shot prediction dict. -/
def FSPrediction.confidenceOf : FSPrediction → ℚ
  | .success _ c _ _ => c
  | .errorShape _ c _ _ => c

/-- The metadata dict built on the success path of
`FewShotClassifier.predict` (lines 211-217): prompt, raw response, model
name, Ollama URL and the number of few-shot examples used — and nothing
else. -/
def fewShotSuccessMeta (prompt response_text : String) : List (String × MetaVal) :=
  [ ("prompt", MetaVal.s prompt)
  , ("response", MetaVal.s response_text)
  , ("model", MetaVal.s "llama3.1:8b")
  , ("ollama_url", MetaVal.s "http://ollama:11434")
  , ("few_shot_examples_used", MetaVal.n (pySliceTo 8 FEW_SHOT_EXAMPLES).length) ]

/-- Embedding of `FewShotClassifier.predict` (`few_shot_prompting.py`
lines 169-227) with default construction arguments
(`model_name = "llama3.1:8b"`, `ollama_base_url = "http://ollama:11434"`,
`max_examples = 8`).  `ready` is `is_model_ready()` and `loadOk` the
outcome of the `load_model()` probe; when both fail, the `RuntimeError`
raised before the `try` block is the only exception that escapes.  Inside
the `try`, every exception — including the `RuntimeError` from
`_call_ollama` and the `AttributeError` raised by
`predicted_label.split("|")` when `_parse_response` returns `None` — is
caught and converted to the error-shaped result dict. -/
def fewShot_predict (ready loadOk : Bool) (http : String → HttpResult)
    (content : Article) : Except String FSPrediction :=
  if !ready && !loadOk then
    .error "Ollama not accessible. Make sure Ollama is running and the model is available."
  else
    let processed := preprocess_text content
    if processed = "" then
      .ok (.errorShape Option.none 0 [] [("error", MetaVal.s "Empty or invalid text")])
    else
      let prompt := create_classification_prompt processed settings.labels 8
      match call_ollama http prompt with
      | .error e => .ok (.errorShape Option.none 0 [] [("error", MetaVal.s e)])
      | .ok response_text =>
        match parse_response response_text with
        | Option.none =>
          .ok (.errorShape Option.none 0 []
            [("error", MetaVal.s "AttributeError: NoneType object has no attribute split")])
        | Option.some lbl =>
          .ok (.success (pySplitPipe lbl) (4/5) [(lbl, 4/5)]
            (fewShotSuccessMeta prompt response_text))

/-- One `(label, score)` pair returned by the GLiClass scoring pipeline. -/
structure ScoredLabel where
  label : String
  score : ℚ
deriving DecidableEq, Repr

/-- The result dict of `ZeroShotClassifier.predict` for the default
`classification_type = "multi-label"`, which always adds the
`labels`/`confidences`/`above_threshold` keys. -/
structure ZSResult where
  label : Option String
  confidence : ℚ
  probabilities : List (String × ℚ)
  metadata : List (String × MetaVal)
  labels : List String
  confidences : List ℚ
  above_threshold : Nat
deriving DecidableEq, Repr

/-- Embedding of `ZeroShotClassifier.predict` (`zero_shot.py` lines
96-160), parameterized by the scoring pipeline (which returns one list of
already-thresholded `(label, score)` pairs per input text).  Alongside the
result, the list of texts the pipeline was invoked on is returned, so that
theorems can speak about whether the scoring model was called.  The
pipeline is always invoked exactly once, on the preprocessed text, with
`settings.labels` as the label set — the `candidate_labels` argument is
only echoed into the metadata. -/
def zeroShot_predict (ready : Bool)
    (pipeline : String → List String → ℚ → List (List ScoredLabel))
    (thresholdArg : Option ℚ) (content : Article)
    (candidate_labels : Option (List String)) :
    Except String ZSResult × List String :=
  if !ready then (.error "Model not loaded. Call load_model() first.", [])
  else
    let threshold := thresholdArg.getD (9/10)
    let processed := preprocess_text content
    let results := pipeline processed settings.labels threshold
    let result := results.headD []
    ( .ok
      { label := result.head?.map ScoredLabel.label
      , confidence := (result.head?.map ScoredLabel.score).getD 0
      , probabilities := result.map fun x => (x.label, x.score)
      , metadata :=
          [ ("model_name", MetaVal.s "knowledgator/gliclass-modern-large-v2.0")
          , ("classification_type", MetaVal.s "multi-label")
          , ("threshold", MetaVal.q threshold)
          , ("candidate_labels",
              match candidate_labels with
              | Option.some ls => MetaVal.ls ls
              | Option.none => MetaVal.none)
          , ("total_predictions", MetaVal.n result.length) ]
      , labels := result.map ScoredLabel.label
      , confidences := result.map ScoredLabel.score
      , above_threshold := result.length }
    , [processed] )

/-- A raw CSV data row: the `title` and `abstract` cell contents, as the
strings `str(row[col])` produces (a pandas `NaN` cell stringifies to
`"nan"`).  The required-columns check of `process_csv` is discharged by
this typed representation: the claims below are about batches whose
schema is valid. -/
structure CsvRow where
  title : String
  abstract : String
deriving DecidableEq, Repr

/-- The row filter of `CSVProcessor.process_csv` (`csv_processor.py`
line 45): a row survives unless its stripped title or abstract is empty
or case-insensitively equals `nan` or `none`. -/
def rowValid (r : CsvRow) : Bool :=
  let t := pyStrip r.title
  let a := pyStrip r.abstract
  !(t == "" || a == "" || ["nan", "none", ""].contains (pyLower t)
      || ["nan", "none", ""].contains (pyLower a))

/-- The response dict for one classified article (`ArticleResponse`). -/
structure ArticleResponse where
  title : String
  labels : List String
deriving DecidableEq, Repr

/-- A Python list comprehension `[f(x) for x in l]` in which `f` may
raise, modelled in `Except`: elements are evaluated left to right and the
first raised exception aborts the whole comprehension. -/
def mapExcept {α β ε : Type} (f : α → Except ε β) : List α → Except ε (List β)
  | [] => .ok []
  | a :: as =>
    match f a with
    | .error e => .error e
    | .ok b =>
      match mapExcept f as with
      | .error e => .error e
      | .ok bs => .ok (b :: bs)

/-- Embedding of `ClassificationService.classify_articles_batch`
(`app/services/classification.py` lines 38-48): a bare list comprehension
over `classify_article`, with no per-row exception handling. -/
def classify_articles_batch {ε : Type} (classify : Article → Except ε ArticleResponse)
    (articles : List Article) : Except ε (List ArticleResponse) :=
  mapExcept classify articles

/-- Embedding of `CSVProcessor._format_labels`: pipe-join, empty list to
empty string. -/
def format_labels (labels : List String) : String :=
  if labels.isEmpty then "" else String.mk (joinSep "|".data (labels.map String.data))

/-- The output of `CSVProcessor.process_csv`: the written rows
`(title, abstract, joined labels)` (original, unstripped cell values) and
the returned processed-row count `len(articles)`. -/
structure CsvOutput where
  rows : List (String × String × String)
  processed_rows : Nat
deriving DecidableEq, Repr

/-- Embedding of `CSVProcessor.process_csv` (`csv_processor.py` lines
25-72) for a schema-valid batch, parameterized by the classifier the
service delegates to (`classify_article`, which may raise).  Valid rows
are collected, classified via `classify_articles_batch`, and zipped back
against the surviving rows; any exception is re-raised wrapped as
`Exception("Error processing CSV file: ...")`, so a single failing row
aborts the whole batch. -/
def process_csv (classify : Article → Except String ArticleResponse)
    (rows : List CsvRow) : Except String CsvOutput :=
  let valid := rows.filter rowValid
  let articles := valid.map fun r => Article.mk (pyStrip r.title) (pyStrip r.abstract)
  match classify_articles_batch classify articles with
  | .error e => .error ("Error processing CSV file: " ++ e)
  | .ok classifications =>
    .ok
      { rows := (valid.zip classifications).map fun p =>
          (p.1.title, p.1.abstract, format_labels p.2.labels)
      , processed_rows := articles.length }

/-- An HTTP outcome is a failure for `_call_ollama` when it is a
transport error or a non-200 status. -/
def httpFailure : HttpResult → Bool
  | .transportError _ => true
  | .response status _ => !(status == 200)

/-- The `RuntimeError` message `_call_ollama` raises for a failing HTTP
outcome. -/
def ollamaFailureMsg : HttpResult → String
  | .transportError m => "Failed to communicate with Ollama: " ++ m
  | .response status _ => "Ollama API returned status " ++ toString status

/-- A transport that always fails with a connection error. -/
def httpTransportDown : String → HttpResult := fun _ => .transportError "boom"

/-- A transport that always answers 200 with the body text
`Neurological`. -/
def httpOk200 : String → HttpResult := fun _ => .response 200 "Neurological"

/-- Projection out of the few-shot `Except` result (junk on the raise
case, which the relevant theorems exclude). -/
def fsOf : Except String FSPrediction → FSPrediction
  | .ok p => p
  | .error _ => .errorShape Option.none 0 [] []

/-- A constant scoring pipeline used to instantiate the zero-shot
theorems. -/
def pipelineConst : String → List String → ℚ → List (List ScoredLabel) :=
  fun _ _ _ => [[⟨"Cardiovascular", 91 / 100⟩]]

/-- Projection out of the zero-shot `Except` result (junk on the raise
case, which the relevant theorems exclude). -/
def zsOf : Except String ZSResult → ZSResult
  | .ok r => r
  | .error _ => ⟨Option.none, 0, [], [], [], [], 0⟩

/-- A classifier that succeeds on every article, used to instantiate the
batch-accounting theorem. -/
def classifyTotal : Article → Except String ArticleResponse :=
  fun a => .ok ⟨a.title, ["Neurological"]⟩

/-- A classifier that raises on the article titled `T2` and succeeds
elsewhere, used to instantiate the batch-abort theorems. -/
def classifyFailT2 : Article → Except String ArticleResponse :=
  fun a =>
    if a.title == "T2" then .error "InferenceError: boom"
    else .ok ⟨a.title, ["Neurological"]⟩

/-- The spec's mixed example batch: one valid row, one empty abstract,
one `nan` abstract. -/
def csvRowsMixed : List CsvRow := [⟨"T1", "A1"⟩, ⟨"T2", ""⟩, ⟨"T3", "nan"⟩]

/-- A batch of two valid rows. -/
def csvRowsTwoValid : List CsvRow := [⟨"T1", "A1"⟩, ⟨"T2", "A2"⟩]

/-- Row and processed counts of a successful CSV run, `none` when the run
raised. -/
def csvOkCounts : Except String CsvOutput → Option (Nat × Nat)
  | .ok o => some (o.rows.length, o.processed_rows)
  | .error _ => none

/-! Helper lemmas about `List.find?`, `mapExcept` and the whitespace
machinery, shared by the claim theorems below. -/

/-- A successful `find?` splits the list into a failing part, the found
element, and a remainder: the found element is the first satisfying one. -/
theorem find?_first_split {α : Type} (p : α → Bool) :
    ∀ (l : List α) (a : α), l.find? p = some a →
      p a = true ∧ ∃ l₁ l₂, l = l₁ ++ a :: l₂ ∧ ∀ x ∈ l₁, p x = false := by
  intro l
  induction l with
  | nil => intro a h; simp [List.find?] at h
  | cons b bs ih =>
    intro a h
    by_cases hb : p b = true
    · have hba : b = a := by simpa [List.find?, hb] using h
      subst hba
      exact ⟨hb, [], bs, rfl, by simp⟩
    · have hb' : p b = false := by simpa using hb
      simp only [List.find?, hb'] at h
      obtain ⟨hpa, l₁, l₂, hsplit, hall⟩ := ih a h
      refine ⟨hpa, b :: l₁, l₂, by rw [hsplit]; rfl, ?_⟩
      intro x hx
      rcases List.mem_cons.mp hx with hxb | hx
      · rw [hxb]; exact hb'
      · exact hall x hx

/-- If every element maps to a success, `mapExcept` succeeds and preserves
the length. -/
theorem mapExcept_ok_of_all {α β ε : Type} (f : α → Except ε β) :
    ∀ l : List α, (∀ a ∈ l, (f a).isOk = true) →
      ∃ ys, mapExcept f l = .ok ys ∧ ys.length = l.length := by
  intro l
  induction l with
  | nil => intro _; exact ⟨[], rfl, rfl⟩
  | cons a as ih =>
    intro h
    cases hfa : f a with
    | error e =>
      have := h a (List.mem_cons_self a as)
      rw [hfa] at this
      simp [Except.isOk, Except.toBool] at this
    | ok b =>
      obtain ⟨ys, h1, h2⟩ := ih fun x hx => h x (List.mem_cons_of_mem _ hx)
      exact ⟨b :: ys, by simp [mapExcept, hfa, h1], by simp [h2]⟩

/-- If some element maps to a failure, `mapExcept` fails. -/
theorem mapExcept_error_of_mem {α β ε : Type} (f : α → Except ε β) :
    ∀ (l : List α) (a : α) (e : ε), a ∈ l → f a = .error e →
      ∃ e', mapExcept f l = .error e' := by
  intro l
  induction l with
  | nil => intro a e h; exact absurd h (List.not_mem_nil a)
  | cons b bs ih =>
    intro a e hmem herr
    cases hfb : f b with
    | error e₀ => exact ⟨e₀, by simp [mapExcept, hfb]⟩
    | ok y =>
      rcases List.mem_cons.mp hmem with hab | hmem'
      · rw [hab, hfb] at herr; cases herr
      · obtain ⟨e', h'⟩ := ih a e hmem' herr
        exact ⟨e', by simp [mapExcept, hfb, h']⟩

/-- With a non-empty accumulator, `splitWsAux` always emits a token. -/
theorem splitWsAux_ne_nil_of_acc {s : List Char} :
    ∀ {acc : List Char}, acc ≠ [] → splitWsAux s acc ≠ [] := by
  induction s with
  | nil =>
    intro acc hacc
    simp [splitWsAux, List.isEmpty_iff, hacc]
  | cons c cs ih =>
    intro acc hacc
    by_cases hws : c.isWhitespace
    · simp [splitWsAux, hws, List.isEmpty_iff, hacc]
    · simpa [splitWsAux, hws] using ih (List.cons_ne_nil c acc)

/-- A character list containing a non-whitespace character splits into at
least one token. -/
theorem splitWsAux_ne_nil_of_mem {c : Char} :
    ∀ (s acc : List Char), c ∈ s → c.isWhitespace = false → splitWsAux s acc ≠ [] := by
  intro s
  induction s with
  | nil => intro acc h; exact absurd h (List.not_mem_nil c)
  | cons b bs ih =>
    intro acc hmem hws
    by_cases hb : b.isWhitespace
    · have hcbs : c ∈ bs := by
        rcases List.mem_cons.mp hmem with hcb | h
        · rw [hcb] at hws; rw [hws] at hb; exact absurd hb (by simp)
        · exact h
      by_cases hacc : acc.isEmpty
      · simpa [splitWsAux, hb, hacc] using ih [] hcbs hws
      · simp [splitWsAux, hb, hacc]
    · exact splitWsAux_ne_nil_of_acc (List.cons_ne_nil b acc) ∘ (by simpa [splitWsAux, hb] using ·)

/-- Every token produced by `splitWsAux` is non-empty. -/
theorem splitWsAux_tokens_ne_nil :
    ∀ (s acc t : List Char), t ∈ splitWsAux s acc → t ≠ [] := by
  intro s
  induction s with
  | nil =>
    intro acc t ht
    by_cases hacc : acc.isEmpty
    · simp [splitWsAux, hacc] at ht
    · have : t = acc.reverse := by simpa [splitWsAux, hacc] using ht
      rw [this]
      simpa [List.isEmpty_iff] using hacc
  | cons b bs ih =>
    intro acc t ht
    by_cases hb : b.isWhitespace
    · by_cases hacc : acc.isEmpty
      · exact ih [] t (by simpa [splitWsAux, hb, hacc] using ht)
      · rcases List.mem_cons.mp (by simpa [splitWsAux, hb, hacc] using ht) with h1 | h2
        · rw [h1]; simpa [List.isEmpty_iff] using hacc
        · exact ih [] t h2
    · exact ih (b :: acc) t (by simpa [splitWsAux, hb] using ht)

/-- Joining a non-empty list of non-empty tokens with spaces is non-empty. -/
theorem joinSpace_ne_nil :
    ∀ ts : List (List Char), ts ≠ [] → (∀ t ∈ ts, t ≠ []) → joinSpace ts ≠ [] := by
  intro ts hne hall
  match ts with
  | [] => exact absurd rfl hne
  | [t] => simpa [joinSpace] using hall t (by simp)
  | t :: u :: rest => simp [joinSpace]

/-! Claim theorems. -/

/-- C1 counterexample.  On the spec's own example input the response
parser returns only the single label `"Neurological"` (whose labels-list
form `predicted_label.split("|")` is `["Neurological"]`), not the claimed
sequence `["Neurological", "Oncological"]`: the primary pass returns on
the first vocabulary label found, so a second matching label is never
included. -/
theorem C1_counterexample :
    parse_response "this is clearly Neurological and Oncological" = Option.some "Neurological" ∧
    pySplitPipe "Neurological" ≠ ["Neurological", "Oncological"] := by
  decide

/-- C1 (amended).  Whenever some vocabulary label matches the primary
substring pass, the parser returns exactly the first matching label in
vocabulary order: the vocabulary splits as `l₁ ++ l₀ :: l₂` with every
label before `l₀` failing the primary pass.  At most one label is ever
returned (the result is an `Option`), so the parser cannot return more
than one label. -/
theorem C1_parse_first_primary_match (response l : String)
    (hmem : l ∈ settings.labels) (hl : primaryMatch response l = true) :
    (parse_response response).isSome = true ∧
    ∃ l₀ l₁ l₂, parse_response response = Option.some l₀ ∧
      primaryMatch response l₀ = true ∧
      settings.labels = l₁ ++ l₀ :: l₂ ∧
      ∀ x ∈ l₁, primaryMatch response x = false := by
  cases hfind : settings.labels.find? (primaryMatch response) with
  | none =>
    have := List.find?_eq_none.mp hfind l hmem
    exact absurd hl (by simpa using this)
  | some l₀ =>
    obtain ⟨hp, l₁, l₂, hsplit, hfail⟩ := find?_first_split _ _ _ hfind
    have hparse : parse_response response = Option.some l₀ := by
      simp [parse_response, hfind]
    exact ⟨by simp [hparse], l₀, l₁, l₂, hparse, hp, hsplit, hfail⟩

/-- C1 witness: the amended theorem applied to the spec's example input
and the matching label `"Neurological"`. -/
theorem C1_parse_first_primary_match_witness :
    primaryMatch "this is clearly Neurological and Oncological" "Neurological" = true ∧
    (parse_response "this is clearly Neurological and Oncological").isSome = true :=
  ⟨by decide,
   (C1_parse_first_primary_match "this is clearly Neurological and Oncological" "Neurological"
      (by decide) (by decide)).1⟩

/-- C9.  For every raw response string, `_parse_response` returns either
`None` or exactly one element of the configured vocabulary in its
original-case form: both passes return elements of `settings.labels`
unchanged, and the `Option` result type makes a second label impossible. -/
theorem C9_parse_response_vocabulary (response : String) :
    parse_response response = Option.none ∨
      ∃ l, parse_response response = Option.some l ∧ l ∈ settings.labels := by
  cases h1 : settings.labels.find? (primaryMatch response) with
  | some l =>
    exact Or.inr ⟨l, by simp [parse_response, h1], List.mem_of_find?_eq_some h1⟩
  | none =>
    cases h2 : settings.labels.find? (fallbackMatch response) with
    | some l =>
      exact Or.inr ⟨l, by simp [parse_response, h1, h2], List.mem_of_find?_eq_some h2⟩
    | none => exact Or.inl (by simp [parse_response, h1, h2])

/-- C10 counterexample.  The whitespace-only abstract `" "` is a
non-empty string, yet `preprocess_text` collapses it (joined with any
title) to the empty text: the emptiness of the output is not decided by
the abstract being non-empty but by it containing a non-whitespace
character. -/
theorem C10_counterexample :
    (" " : String) ≠ "" ∧ preprocess_text ⟨"", " "⟩ = "" := by
  decide

/-- C10 (amended).  Preprocessing gates on the abstract alone: an empty
abstract yields the empty text whatever the title is, and an abstract
containing at least one non-whitespace character (rather than merely
being non-empty) yields a non-empty text even when the title is empty. -/
theorem C10_preprocess_abstract_gate :
    (∀ t : String, preprocess_text ⟨t, ""⟩ = "") ∧
    (∀ t ab : String, (∃ c ∈ ab.data, c.isWhitespace = false) →
      preprocess_text ⟨t, ab⟩ ≠ "") := by
  constructor
  · intro t; simp [preprocess_text]
  · rintro t ab ⟨c, hc, hws⟩ hEq
    have hab : ab ≠ "" := by
      intro h
      rw [h] at hc
      simp at hc
    have h1 : preprocess_text ⟨t, ab⟩
        = String.mk (joinSpace (splitWs (t.data ++ '\n' :: ab.data))) := by
      simp [preprocess_text, hab]
    rw [h1] at hEq
    have h2 : joinSpace (splitWs (t.data ++ '\n' :: ab.data)) = [] := by
      simpa using congrArg String.data hEq
    have hcmem : c ∈ t.data ++ '\n' :: ab.data :=
      List.mem_append_right _ (List.mem_cons_of_mem _ hc)
    exact joinSpace_ne_nil _ (splitWsAux_ne_nil_of_mem _ [] hcmem hws)
      (fun tk htk => splitWsAux_tokens_ne_nil _ [] tk htk) h2

/-- An infix of a list is an infix of that list extended on the right. -/
theorem infix_append_extend_right {α : Type} {l m n : List α} (h : l <:+: m) :
    l <:+: m ++ n := by
  obtain ⟨s, t, rfl⟩ := h
  exact ⟨s, t ++ n, by simp⟩

/-- An infix of a list is an infix of that list extended on the left. -/
theorem infix_append_extend_left {α : Type} {l m n : List α} (h : l <:+: n) :
    l <:+: m ++ n := by
  obtain ⟨s, t, rfl⟩ := h
  exact ⟨m ++ s, t, by simp⟩

/-- Every member of a separator-joined list is an infix of the join. -/
theorem joinSep_contains_mem (sep : List Char) :
    ∀ (ls : List (List Char)) (x : List Char), x ∈ ls → x <:+: joinSep sep ls := by
  intro ls
  induction ls with
  | nil => intro x hx; simp at hx
  | cons y ys ih =>
    intro x hx
    cases ys with
    | nil =>
      have hxy : x = y := by simpa using hx
      rw [hxy]
      exact ⟨[], [], by simp [joinSep]⟩
    | cons z rest =>
      rcases List.mem_cons.mp hx with hxy | hx'
      · rw [hxy]
        exact ⟨[], sep ++ joinSep sep (z :: rest), by simp [joinSep]⟩
      · have h1 := infix_append_extend_left (m := y ++ sep) (ih x hx')
        have h2 : y ++ sep ++ joinSep sep (z :: rest) = joinSep sep (y :: z :: rest) := by
          simp [joinSep]
        rw [h2] at h1
        exact h1

/-- C6 counterexample.  At `maxExamples = -1` the Python slice
`FEW_SHOT_EXAMPLES[:max_examples]` keeps all but the last example, so the
prompt contains 7 example blocks — not "at most maxExamples": the claim
quantifies over every `maxExamples` value, but negative values slice from
the end of the bank instead of bounding the block count. -/
theorem C6_counterexample :
    (exampleBlocks (-1)).length = 7 ∧ ¬(((exampleBlocks (-1)).length : ℤ) ≤ -1) := by
  constructor
  · decide
  · decide

/-- C6 (amended).  For every text, vocabulary and nonnegative
`maxExamples`, the built prompt contains every vocabulary label's name
verbatim (as an infix of the rendered character sequence), and its
example blocks are `FEW_SHOT_EXAMPLES.take maxExamples` — at most
`maxExamples` of them, a prefix of the fixed bank, hence in bank order.
The builder is a pure function of its arguments, so the output is
deterministic by construction. -/
theorem C6_prompt_contains_vocabulary (text : String) (labels : List String) (n : ℤ)
    (h : 0 ≤ n) :
    (∀ l ∈ labels, l.data <:+: (create_classification_prompt text labels n).data) ∧
    ((exampleBlocks n).length : ℤ) ≤ n ∧
    exampleBlocks n <+: FEW_SHOT_EXAMPLES := by
  have hb : exampleBlocks n = FEW_SHOT_EXAMPLES.take n.toNat := by
    simp [exampleBlocks, pySliceTo, h]
  refine ⟨?_, ?_, ?_⟩
  · intro l hl
    have hJ : l.data <:+: joinSep ", ".data (labels.map String.data) :=
      joinSep_contains_mem _ _ _ (List.mem_map_of_mem _ hl)
    show l.data <:+: promptData text.data (labels.map String.data) n
    unfold promptData
    exact infix_append_extend_right (infix_append_extend_right (infix_append_extend_right
      (infix_append_extend_right (infix_append_extend_right (infix_append_extend_right
        (infix_append_extend_left hJ))))))
  · have h2 : (exampleBlocks n).length ≤ n.toNat := by
      rw [hb, List.length_take]
      exact Nat.min_le_left _ _
    omega
  · rw [hb]
    exact ⟨FEW_SHOT_EXAMPLES.drop n.toNat, List.take_append_drop _ _⟩

/-- C6 witness: the amended theorem applied to a concrete text, the
configured vocabulary and `maxExamples = 8`. -/
theorem C6_prompt_contains_vocabulary_witness :
    (0 : ℤ) ≤ 8 ∧
    "Cardiovascular".data <:+:
      (create_classification_prompt "sample text" settings.labels 8).data ∧
    ((exampleBlocks 8).length : ℤ) ≤ 8 :=
  ⟨by decide,
   (C6_prompt_contains_vocabulary "sample text" settings.labels 8 (by decide)).1
      "Cardiovascular" (by decide),
   (C6_prompt_contains_vocabulary "sample text" settings.labels 8 (by decide)).2.1⟩

/-- C2 counterexample.  In a batch of two valid rows where classifying the
second raises, `process_csv` re-raises the wrapped exception: the first
row's result is lost and no per-row error marker is emitted, because
`classify_articles_batch` is a bare list comprehension with no per-row
exception handling. -/
theorem C2_counterexample :
    rowValid ⟨"T2", "A2"⟩ = true ∧
    process_csv classifyFailT2 csvRowsTwoValid
      = Except.error "Error processing CSV file: InferenceError: boom" := by
  constructor
  · decide
  · rfl

/-- C2 (amended).  If classification of any valid row raises, the
exception propagates through `classify_articles_batch` and
`process_csv` fails as a whole: no batch output is produced for any row. -/
theorem C2_batch_aborts_on_row_failure (classify : Article → Except String ArticleResponse)
    (rows : List CsvRow) (a : Article) (e : String)
    (hmem : a ∈ (rows.filter rowValid).map fun r =>
      Article.mk (pyStrip r.title) (pyStrip r.abstract))
    (herr : classify a = .error e) :
    (process_csv classify rows).isOk = false := by
  obtain ⟨e', h'⟩ := mapExcept_error_of_mem classify _ a e hmem herr
  simp [process_csv, classify_articles_batch, h', Except.isOk, Except.toBool]

/-- C2 witness: the amended theorem applied to the two-valid-row batch
with the classifier failing on the second row. -/
theorem C2_batch_aborts_on_row_failure_witness :
    (process_csv classifyFailT2 csvRowsTwoValid).isOk = false :=
  C2_batch_aborts_on_row_failure classifyFailT2 csvRowsTwoValid
    ⟨"T2", "A2"⟩ "InferenceError: boom" (by decide) (by rfl)

/-- C5.  For a schema-valid batch whose per-row classifications all
succeed, the output row count equals the valid-row count (so output rows
plus dropped rows equal input rows) and the reported processed-row count
equals the output row count.  The all-success hypothesis is the claim's
operating condition: a raising row is the subject of C2 instead. -/
theorem C5_csv_row_accounting (classify : Article → Except String ArticleResponse)
    (rows : List CsvRow) (h : ∀ a, (classify a).isOk = true) :
    csvOkCounts (process_csv classify rows)
      = some ((rows.filter rowValid).length, (rows.filter rowValid).length) ∧
    (rows.filter rowValid).length + (rows.filter fun r => !rowValid r).length
      = rows.length := by
  constructor
  · obtain ⟨ys, hok, hlen⟩ := mapExcept_ok_of_all classify
      ((rows.filter rowValid).map fun r => Article.mk (pyStrip r.title) (pyStrip r.abstract))
      (fun a _ => h a)
    simp [process_csv, classify_articles_batch, hok, csvOkCounts, List.length_zip, hlen,
      List.length_map, Nat.min_self]
  · exact (List.length_eq_length_filter_add rowValid).symm

/-- C5 witness: on the spec's example batch `[("T1","A1"), ("T2",""),
("T3","nan")]` with an always-succeeding classifier, exactly one row is
classified, `processed_rows = 1`, and 1 output row plus 2 dropped rows
account for the 3 input rows. -/
theorem C5_csv_row_accounting_witness :
    csvOkCounts (process_csv classifyTotal csvRowsMixed) = some (1, 1) ∧ 1 + 2 = 3 := by
  have h := C5_csv_row_accounting classifyTotal csvRowsMixed fun a => rfl
  exact ⟨h.1, h.2⟩

/-- C3 counterexample.  With the model probe succeeding and the
generation call failing at transport level, `predict` returns a normal
result value — the error-shaped dict with `label = None` and the message
in metadata — instead of propagating any exception (and the codebase
defines no `InferenceError` at all; `_call_ollama` raises
`RuntimeError`, which `predict` catches). -/
theorem C3_counterexample :
    fewShot_predict false true httpTransportDown ⟨"T", "A"⟩
      = Except.ok (FSPrediction.errorShape Option.none 0 []
          [("error", MetaVal.s "Failed to communicate with Ollama: boom")]) := by
  rfl

/-- C3 (amended).  For every transport-level failure or non-200 response
from the generation service, the `RuntimeError` raised by `_call_ollama`
is caught inside `predict`, which returns the error-shaped result dict
carrying the failure message in its `error` metadata entry — no exception
reaches the caller. -/
theorem C3_predict_returns_error_dict (ready loadOk : Bool) (http : String → HttpResult)
    (content : Article) (h0 : (!ready && !loadOk) = false)
    (h1 : preprocess_text content ≠ "")
    (h2 : httpFailure
      (http (create_classification_prompt (preprocess_text content) settings.labels 8)) = true) :
    fewShot_predict ready loadOk http content
      = Except.ok (FSPrediction.errorShape Option.none 0 []
          [("error", MetaVal.s (ollamaFailureMsg
            (http (create_classification_prompt (preprocess_text content) settings.labels 8))))]) := by
  unfold fewShot_predict
  cases hh : http (create_classification_prompt (preprocess_text content) settings.labels 8) with
  | transportError m =>
    simp [h0, h1, call_ollama, hh, ollamaFailureMsg]
  | response s body =>
    have hs : (s == 200) = false := by
      rw [hh] at h2
      simpa [httpFailure] using h2
    simp [h0, h1, call_ollama, hh, hs, ollamaFailureMsg]

/-- C3 witness: the amended theorem applied to a concrete article and the
always-failing transport. -/
theorem C3_predict_returns_error_dict_witness :
    fewShot_predict false true httpTransportDown ⟨"T", "A"⟩
      = Except.ok (FSPrediction.errorShape Option.none 0 []
          [("error", MetaVal.s (ollamaFailureMsg (httpTransportDown
            (create_classification_prompt (preprocess_text ⟨"T", "A"⟩) settings.labels 8))))]) :=
  C3_predict_returns_error_dict false true httpTransportDown ⟨"T", "A"⟩
    (by rfl) (by decide) (by rfl)

/-- C7 counterexample.  A concrete successful prediction: the result is
success-shaped with the fixed placeholder confidence 0.8, and its
metadata keys carry no `confidence_is_placeholder` (or any other
placeholder) marker — the placeholder score is presented like a measured
one. -/
theorem C7_counterexample :
    (fewShot_predict false true httpOk200 ⟨"T", "A"⟩).isOk = true ∧
    (fsOf (fewShot_predict false true httpOk200 ⟨"T", "A"⟩)).confidenceOf = 4 / 5 ∧
    ((fsOf (fewShot_predict false true httpOk200 ⟨"T", "A"⟩)).metadataOf.map Prod.fst).contains
        "confidence_is_placeholder" = false := by
  refine ⟨by rfl, by rfl, by rfl⟩

/-- C7 (amended).  Every successful prediction carries the fixed
placeholder confidence 0.8 in its `confidence` and `probabilities`
fields, and its metadata holds exactly the keys
`prompt`/`response`/`model`/`ollama_url`/`few_shot_examples_used` — in
particular no `confidence_is_placeholder` marker: the placeholder nature
is recorded only in a source comment, not surfaced in the result. -/
theorem C7_placeholder_confidence_unmarked (ready loadOk : Bool) (http : String → HttpResult)
    (content : Article) (body lbl : String) (h0 : (!ready && !loadOk) = false)
    (h1 : preprocess_text content ≠ "")
    (h2 : http (create_classification_prompt (preprocess_text content) settings.labels 8)
      = .response 200 body)
    (h3 : parse_response (pyStrip body) = Option.some lbl) :
    fewShot_predict ready loadOk http content
      = Except.ok (FSPrediction.success (pySplitPipe lbl) (4 / 5) [(lbl, 4 / 5)]
          (fewShotSuccessMeta
            (create_classification_prompt (preprocess_text content) settings.labels 8)
            (pyStrip body))) ∧
    (fewShotSuccessMeta
        (create_classification_prompt (preprocess_text content) settings.labels 8)
        (pyStrip body)).map Prod.fst
      = ["prompt", "response", "model", "ollama_url", "few_shot_examples_used"] ∧
    (["prompt", "response", "model", "ollama_url",
        "few_shot_examples_used"].contains "confidence_is_placeholder") = false := by
  refine ⟨?_, by rfl, by decide⟩
  unfold fewShot_predict
  simp [h0, h1, call_ollama, h2, h3]

/-- C7 witness: the amended theorem applied to the always-200 transport,
whose body parses to the label `Neurological`. -/
theorem C7_placeholder_confidence_unmarked_witness :
    fewShot_predict false true httpOk200 ⟨"T", "A"⟩
      = Except.ok (FSPrediction.success (pySplitPipe "Neurological") (4 / 5)
          [("Neurological", 4 / 5)]
          (fewShotSuccessMeta
            (create_classification_prompt (preprocess_text ⟨"T", "A"⟩) settings.labels 8)
            (pyStrip "Neurological"))) ∧
    (fewShotSuccessMeta
        (create_classification_prompt (preprocess_text ⟨"T", "A"⟩) settings.labels 8)
        (pyStrip "Neurological")).map Prod.fst
      = ["prompt", "response", "model", "ollama_url", "few_shot_examples_used"] ∧
    (["prompt", "response", "model", "ollama_url",
        "few_shot_examples_used"].contains "confidence_is_placeholder") = false :=
  C7_placeholder_confidence_unmarked false true httpOk200 ⟨"T", "A"⟩ "Neurological"
    "Neurological" (by rfl) (by decide) (by rfl) (by decide)

/-- C4 counterexample.  For an input with empty abstract, the zero-shot
`predict` still invokes the scoring pipeline — on the empty preprocessed
text — and returns whatever the pipeline scored, with no typed
empty-input marker among its metadata keys: there is no empty-input
short circuit in `ZeroShotClassifier.predict`. -/
theorem C4_counterexample :
    (zeroShot_predict true pipelineConst Option.none ⟨"T", ""⟩ Option.none).2 = [""] ∧
    (zsOf (zeroShot_predict true pipelineConst Option.none ⟨"T", ""⟩ Option.none).1).labels
      = ["Cardiovascular"] ∧
    ((zsOf (zeroShot_predict true pipelineConst Option.none ⟨"T", ""⟩
        Option.none).1).metadata.map Prod.fst).contains "error" = false := by
  refine ⟨by rfl, by rfl, by rfl⟩

/-- C4 (amended).  An empty abstract preprocesses to the empty text, but
the zero-shot `predict` still calls the scoring model once, on that empty
text, and its metadata keys are the fixed five scoring keys with no
empty-input marker; the immediate empty-result short circuit with an
`error` metadata entry exists only in the few-shot classifier's
`predict`. -/
theorem C4_zero_shot_no_empty_short_circuit :
    (∀ (pipeline : String → List String → ℚ → List (List ScoredLabel))
        (thr : Option ℚ) (title : String) (cand : Option (List String)),
      (zeroShot_predict true pipeline thr ⟨title, ""⟩ cand).2 = [""] ∧
      ((zsOf (zeroShot_predict true pipeline thr ⟨title, ""⟩ cand).1).metadata.map
          Prod.fst).contains "error" = false) ∧
    (∀ (ready loadOk : Bool) (http : String → HttpResult) (title : String),
      (!ready && !loadOk) = false →
      fewShot_predict ready loadOk http ⟨title, ""⟩
        = Except.ok (FSPrediction.errorShape Option.none 0 []
            [("error", MetaVal.s "Empty or invalid text")])) := by
  constructor
  · exact fun pipeline thr title cand => ⟨rfl, rfl⟩
  · intro ready loadOk http title h0
    unfold fewShot_predict
    simp [h0, preprocess_text]

/-- C4 witness: the amended theorem applied to the constant pipeline and
the failing transport, each on an article with empty abstract. -/
theorem C4_zero_shot_no_empty_short_circuit_witness :
    (zeroShot_predict true pipelineConst Option.none ⟨"Title", ""⟩ (Option.some ["X"])).2
      = [""] ∧
    fewShot_predict false true httpTransportDown ⟨"Title", ""⟩
      = Except.ok (FSPrediction.errorShape Option.none 0 []
          [("error", MetaVal.s "Empty or invalid text")]) :=
  ⟨(C4_zero_shot_no_empty_short_circuit.1 pipelineConst Option.none "Title"
      (Option.some ["X"])).1,
   C4_zero_shot_no_empty_short_circuit.2 false true httpTransportDown "Title" (by rfl)⟩

/-- C8.  Noninterference of `candidate_labels`: two zero-shot predictions
differing only in the `candidate_labels` argument agree on every result
field except the metadata echo — scoring always runs over
`settings.labels`, so `label`, `confidence`, `probabilities`, `labels`,
`confidences` and `above_threshold` are identical, as is the
success/failure status. -/
theorem C8_candidate_labels_noninterference (ready : Bool)
    (pipeline : String → List String → ℚ → List (List ScoredLabel))
    (thr : Option ℚ) (content : Article) (c₁ c₂ : Option (List String)) :
    (zsOf (zeroShot_predict ready pipeline thr content c₁).1).label
      = (zsOf (zeroShot_predict ready pipeline thr content c₂).1).label ∧
    (zsOf (zeroShot_predict ready pipeline thr content c₁).1).confidence
      = (zsOf (zeroShot_predict ready pipeline thr content c₂).1).confidence ∧
    (zsOf (zeroShot_predict ready pipeline thr content c₁).1).probabilities
      = (zsOf (zeroShot_predict ready pipeline thr content c₂).1).probabilities ∧
    (zsOf (zeroShot_predict ready pipeline thr content c₁).1).labels
      = (zsOf (zeroShot_predict ready pipeline thr content c₂).1).labels ∧
    (zsOf (zeroShot_predict ready pipeline thr content c₁).1).confidences
      = (zsOf (zeroShot_predict ready pipeline thr content c₂).1).confidences ∧
    (zsOf (zeroShot_predict ready pipeline thr content c₁).1).above_threshold
      = (zsOf (zeroShot_predict ready pipeline thr content c₂).1).above_threshold ∧
    (zeroShot_predict ready pipeline thr content c₁).1.isOk
      = (zeroShot_predict ready pipeline thr content c₂).1.isOk := by
  cases ready <;> exact ⟨rfl, rfl, rfl, rfl, rfl, rfl, rfl⟩

/-- C10 witness: the amended theorem applied to a concrete empty abstract
and to a concrete abstract with non-whitespace content under an empty
title. -/
theorem C10_preprocess_abstract_gate_witness :
    preprocess_text ⟨"AnyTitle", ""⟩ = "" ∧ preprocess_text ⟨"", "abstract text"⟩ ≠ "" :=
  ⟨C10_preprocess_abstract_gate.1 "AnyTitle",
   C10_preprocess_abstract_gate.2 "" "abstract text" ⟨'a', by decide, by decide⟩⟩
